import Mathlib

/-!
Verification of the balance-refresh behavioral core of the transfer-dapp
repository, together with the resource/error handling of its end-to-end
test script `testsprite_tests/TC006_Token_Balance_Retrieval_and_Auto_Refresh.py`.

The repository ships only the test witness; the polling/refresh state
machine it exercises (BalanceSource, RefreshScheduler, BalanceStateMachine,
RetryController, DisplayProjection) is specified in spec.md and modelled
here from that specification.
-/

namespace TransferDapp

/-- Modelled from the spec (§3): `ChainId: enum {ERC20, TRC20}` —
the implementation of the balance core is not in the repository, only its
test witness; the data model is taken from the specification. -/
inductive ChainId
  | ERC20
  | TRC20
deriving DecidableEq, Repr, Fintype

/-- Modelled from the spec (§3): `FetchStatus: enum {Pending, Ok, Error,
Retrying}`. -/
inductive FetchStatus
  | Pending
  | Ok
  | Error
  | Retrying
deriving DecidableEq, Repr, Fintype

/-- Tail of a decimal-string check: a run of digits optionally followed by
a dot and a nonempty run of digits. -/
def decimalTail : List Char → Bool
  | [] => true
  | '.' :: rest => !rest.isEmpty && rest.all Char.isDigit
  | c :: rest => c.isDigit && decimalTail rest

/-- The pattern `\d+(\.\d+)?` from the spec (§3) and from the test's
locator regex `ERC-20 Token Balance: \d+(?:\.\d+)?`: at least one digit,
optionally followed by a dot and at least one digit. -/
def isDecimalString (s : String) : Bool :=
  match s.data with
  | [] => false
  | c :: rest => c.isDigit && decimalTail rest

/-- Modelled from the spec (§3): `BalanceRecord: { chain, amount,
lastUpdatedAt, status }`; before the first success the amount is
absent, hence `Option String`. -/
structure BalanceRecord where
  chain : ChainId
  amount : Option String
  lastUpdatedAt : Nat
  status : FetchStatus
deriving DecidableEq, Repr

/-- Modelled from the spec (§5): per-chain state of the
BalanceStateMachine together with the sequence-number bookkeeping the
spec requires (tag each in-flight fetch with a monotonically increasing
sequence number per chain and discard stale completions). -/
structure ChainState where
  record : BalanceRecord
  nextSeq : Nat
  lastAppliedSeq : Nat
deriving DecidableEq, Repr

/-- Modelled from the spec (§3): a fresh record is Pending with no
amount; sequence numbers start above `lastAppliedSeq = 0`. -/
def initialChain (c : ChainId) : ChainState :=
  { record := { chain := c, amount := none, lastUpdatedAt := 0, status := .Pending }
    nextSeq := 1
    lastAppliedSeq := 0 }

/-- Modelled from the spec (§3): exactly one BalanceRecord exists per
ChainId at any time; the machine holds one per chain. -/
structure Machine where
  erc20 : ChainState
  trc20 : ChainState
deriving DecidableEq, Repr

def Machine.chain (m : Machine) : ChainId → ChainState
  | .ERC20 => m.erc20
  | .TRC20 => m.trc20

def Machine.setChain (m : Machine) : ChainId → ChainState → Machine
  | .ERC20, s => { m with erc20 := s }
  | .TRC20, s => { m with trc20 := s }

def initMachine : Machine :=
  { erc20 := initialChain .ERC20, trc20 := initialChain .TRC20 }

/-- Modelled from the spec (§4.2): `read(chain) -> BalanceRecord` is a
pure, non-blocking projection of the most recently committed record. -/
def Machine.read (m : Machine) (c : ChainId) : BalanceRecord :=
  (m.chain c).record

/-- Modelled from the spec (§6): non-success causes of a fetch —
timeout, RPC error, malformed response — all to be treated uniformly as
Failure. -/
inductive FailureReason
  | timeout
  | rpcError
  | malformed
deriving DecidableEq, Repr, Fintype

/-- Modelled from the spec (§4.2, §5): the events delivered to the
BalanceStateMachine by RefreshScheduler and RetryController.  Completions
carry the sequence number of the fetch they belong to, so reordered
arrivals can be expressed. -/
inductive Event
  | fetchStarted (c : ChainId)
  | fetchSucceeded (c : ChainId) (seq : Nat) (amount : String) (time : Nat)
  | fetchFailed (c : ChainId) (seq : Nat) (reason : FailureReason)
  | retryScheduled (c : ChainId)
  | retryExhausted (c : ChainId)
deriving DecidableEq, Repr

def Event.chain : Event → ChainId
  | .fetchStarted c => c
  | .fetchSucceeded c _ _ _ => c
  | .fetchFailed c _ _ => c
  | .retryScheduled c => c
  | .retryExhausted c => c

/-- Modelled from the spec (§4.2): `onFetchStarted` — a starting fetch
takes the next sequence number; the record itself is untouched (Ok stays
Ok, amount retained, no visible flicker). -/
def onFetchStarted (s : ChainState) : ChainState :=
  { s with nextSeq := s.nextSeq + 1 }

/-- Modelled from the spec (§4.2, §5): `onFetchSucceeded` — a non-stale
success commits the new amount with status Ok; a stale completion (its
sequence number not above the last applied one) is silently dropped. -/
def onFetchSucceeded (s : ChainState) (seq : Nat) (a : String) (t : Nat) : ChainState :=
  if s.lastAppliedSeq < seq then
    { s with
      record := { s.record with amount := some a, lastUpdatedAt := t, status := .Ok }
      lastAppliedSeq := seq }
  else s

/-- Modelled from the spec (§4.2): on failure the status moves to Error
(from a Retrying state the retry loop keeps the Retrying indicator). -/
def failStatus : FetchStatus → FetchStatus
  | .Retrying => .Retrying
  | _ => .Error

/-- Modelled from the spec (§4.2, §7): `onFetchFailed` — a non-stale
failure surfaces only as a status value; the failure reason is
irrelevant and the previously committed amount is retained. -/
def onFetchFailed (s : ChainState) (seq : Nat) (_reason : FailureReason) : ChainState :=
  if s.lastAppliedSeq < seq then
    { s with
      record := { s.record with status := failStatus s.record.status }
      lastAppliedSeq := seq }
  else s

/-- Modelled from the spec (§4.3): the RetryController moves an Error
chain to Retrying when the re-fetch attempt is scheduled. -/
def onRetryScheduled (s : ChainState) : ChainState :=
  if s.record.status = .Error then
    { s with record := { s.record with status := .Retrying } }
  else s

/-- Modelled from the spec (§4.3): when `maxRetries` is exhausted the
chain remains in Error with retries stopped; this is still only a status
value, never a fault. -/
def onRetryExhausted (s : ChainState) : ChainState :=
  if s.record.status = .Error ∨ s.record.status = .Retrying then
    { s with record := { s.record with status := .Error } }
  else s

/-- Dispatch of an event to the per-chain handler it addresses. -/
def applyEvent (s : ChainState) : Event → ChainState
  | .fetchStarted _ => onFetchStarted s
  | .fetchSucceeded _ seq a t => onFetchSucceeded s seq a t
  | .fetchFailed _ seq r => onFetchFailed s seq r
  | .retryScheduled _ => onRetryScheduled s
  | .retryExhausted _ => onRetryExhausted s

/-- Modelled from the spec (§5): each event mutates only the record of
the chain it addresses; writes are serialized per chain. -/
def step (m : Machine) (e : Event) : Machine :=
  m.setChain e.chain (applyEvent (m.chain e.chain) e)

def run (m : Machine) (evs : List Event) : Machine :=
  evs.foldl step m

/-- The chain labels used by the display, as asserted by the test's
locators `ERC-20 Token Balance: ...` and `TRC-20 Token Balance: ...`. -/
def chainLabel : ChainId → String
  | .ERC20 => "ERC-20"
  | .TRC20 => "TRC-20"

/-- The error indicator text asserted by the test (line 82):
`page.locator('text=ネットワークエラー')`. -/
def networkErrorText : String := "ネットワークエラー"

/-- The retry indicator text asserted by the test (line 84):
`page.locator('text=再試行中')`. -/
def retryingText : String := "再試行中"

/-- Modelled from the spec (§6): the DisplayProjection renders
`"<CHAIN-LABEL> Token Balance: <amount>"` for Ok, a "network error"
string for Error, and a distinct retry-in-progress string for Retrying;
before the first success (Pending) there is no balance line. -/
def displayProjection (c : ChainId) (r : BalanceRecord) : String :=
  match r.status, r.amount with
  | .Ok, some a => chainLabel c ++ " Token Balance: " ++ a
  | .Error, _ => networkErrorText
  | .Retrying, _ => retryingText
  | _, _ => ""

/-- Modelled from the spec (§4.1): one scheduler tick for a chain —
the `k`-th fetch issued for the chain carries sequence number `k + 1`,
and its outcome (from the BalanceSource, `none` meaning Failure) is
forwarded to the BalanceStateMachine. -/
def tickEvents (src : ChainId → Nat → Option String) (c : ChainId) (k t : Nat) : List Event :=
  match src c t with
  | some a => [.fetchStarted c, .fetchSucceeded c (k + 1) a t]
  | none => [.fetchStarted c, .fetchFailed c (k + 1) .rpcError]

/-- Modelled from the spec (§4.1, §8): the RefreshScheduler fetches on
connect (time 0) and thereafter once per `interval`, independently for
both chains; `schedulerEvents interval src T` is the event trace
produced through times `0, 1, ..., T - 1`. -/
def schedulerEvents (interval : Nat) (src : ChainId → Nat → Option String) : Nat → List Event
  | 0 => []
  | t + 1 =>
    schedulerEvents interval src t ++
      (if t % interval = 0 then
        tickEvents src .ERC20 (t / interval) t ++ tickEvents src .TRC20 (t / interval) t
      else [])

/-- Modelled from the spec (§4.3): the RetryController schedules exactly
one re-fetch attempt `retryDelayMs` after the failure that produced the
Error state. -/
def retryScheduleTime (errorTime retryDelayMs : Nat) : Nat :=
  errorTime + retryDelayMs

/-! ### Embedding of the test script's own control flow

`TC006_Token_Balance_Retrieval_and_Auto_Refresh.py` initialises
`pw = browser = context = None`, creates the three resources in that
order inside a `try:` block, and closes each non-`None` one in the
`finally:` block (lines 88–94). -/

/-- The three resources the script tracks for teardown: the Playwright
session (`pw`), the `browser`, and the browser `context` (lines 5–7). -/
inductive Resource
  | pw
  | browser
  | context
deriving DecidableEq, Repr, Fintype

/-- Where the `try:` body of `run_test` stops: one of the three resource
creations raising (leaving its variable `None`), any later statement
raising (navigation, clicks, assertions — lines 29–86), or normal
completion. -/
inductive ExitPath
  | failAtStart
  | failAtLaunch
  | failAtNewContext
  | failLater
  | normal
deriving DecidableEq, Repr, Fintype

/-- `pw` is non-`None` exactly when `async_playwright().start()` (line
11) returned before the body stopped. -/
def pwCreated : ExitPath → Bool
  | .failAtStart => false
  | _ => true

/-- `browser` is non-`None` exactly when `pw.chromium.launch(...)`
(line 14) returned before the body stopped. -/
def browserCreated : ExitPath → Bool
  | .failAtStart => false
  | .failAtLaunch => false
  | _ => true

/-- `context` is non-`None` exactly when `browser.new_context()`
(line 25) returned before the body stopped. -/
def contextCreated : ExitPath → Bool
  | .failAtStart => false
  | .failAtLaunch => false
  | .failAtNewContext => false
  | _ => true

def resourceCreated (p : ExitPath) : Resource → Bool
  | .pw => pwCreated p
  | .browser => browserCreated p
  | .context => contextCreated p

/-- The `finally:` block (lines 88–94): `if context: await
context.close()`, then `if browser: await browser.close()`, then
`if pw: await pw.stop()` — in that order. -/
def finallyCloses (p : ExitPath) : List Resource :=
  (if contextCreated p then [.context] else []) ++
    (if browserCreated p then [.browser] else []) ++
    (if pwCreated p then [.pw] else [])

/-- The exception classes relevant to the script's `except
async_api.Error` clauses: Playwright's `Error`, its subclass
`TimeoutError`, and anything else. -/
inductive PyExc
  | pwError
  | pwTimeout
  | otherExc
deriving DecidableEq, Repr, Fintype

/-- Which exceptions `except async_api.Error:` (lines 37, 44) catches:
Playwright's `Error` and its `TimeoutError` subclass; other exceptions
propagate. -/
def caughtByAsyncApiError : PyExc → Bool
  | .pwError => true
  | .pwTimeout => true
  | .otherExc => false

/-- One guarded wait (lines 35–38 and 42–45): `try: await
...wait_for_load_state(...) except async_api.Error: pass` — a caught
exception is swallowed, everything else is re-raised. -/
def tryWaitLoadState (w : Except PyExc Unit) : Except PyExc Unit :=
  match w with
  | .ok _ => .ok ()
  | .error e => if caughtByAsyncApiError e then .ok () else .error e

/-- The whole wait phase (lines 34–45): the guarded main-page wait, then
the guarded wait of each iframe in turn; an uncaught exception aborts
the remaining waits. -/
def waitPhase (mainW : Except PyExc Unit) (frameWs : List (Except PyExc Unit)) :
    Except PyExc Unit :=
  frameWs.foldl
    (fun acc w =>
      match acc with
      | .error e => .error e
      | .ok _ => tryWaitLoadState w)
    (tryWaitLoadState mainW)

/-- The script after line 32: the wait phase, then the interaction and
assertion steps (lines 47–86), which run exactly when the wait phase did
not raise. -/
def runAfterGoto {α : Type} (mainW : Except PyExc Unit)
    (frameWs : List (Except PyExc Unit)) (rest : Except PyExc α) : Except PyExc α :=
  match waitPhase mainW frameWs with
  | .error e => .error e
  | .ok _ => rest

/-- A wait outcome that the guarded wait fully absorbs: success or an
exception of a class `except async_api.Error` catches. -/
def waitOutcomeCaught : Except PyExc Unit → Bool
  | .ok _ => true
  | .error e => caughtByAsyncApiError e

/-- An event is a success completion addressed to chain `c`. -/
def isSuccessFor (c : ChainId) : Event → Bool
  | .fetchSucceeded c' _ _ _ => c' = c
  | _ => false

/-- A success event's amount satisfies the decimal pattern; other events
carry no amount. -/
def eventAmountValid : Event → Bool
  | .fetchSucceeded _ _ a _ => isDecimalString a
  | _ => true

/-- Every amount the chain state holds satisfies the decimal pattern. -/
def chainAmountValid (s : ChainState) : Prop :=
  ∀ a, s.record.amount = some a → isDecimalString a = true

/-! ### Helper lemmas -/

theorem chain_setChain_same (m : Machine) (c : ChainId) (s : ChainState) :
    (m.setChain c s).chain c = s := by
  cases c <;> rfl

theorem chain_setChain_ne (m : Machine) (c c' : ChainId) (s : ChainState)
    (h : c' ≠ c) : (m.setChain c s).chain c' = m.chain c' := by
  cases c <;> cases c' <;> simp_all [Machine.setChain, Machine.chain]

theorem setChain_chain_self (m : Machine) (c : ChainId) :
    m.setChain c (m.chain c) = m := by
  cases c <;> rfl

theorem step_chain_same (m : Machine) (e : Event) :
    (step m e).chain e.chain = applyEvent (m.chain e.chain) e := by
  unfold step; exact chain_setChain_same ..

theorem step_chain_ne (m : Machine) (e : Event) (c : ChainId) (h : e.chain ≠ c) :
    (step m e).chain c = m.chain c := by
  unfold step; exact chain_setChain_ne _ _ _ _ (Ne.symm h)

theorem run_append (m : Machine) (l₁ l₂ : List Event) :
    run m (l₁ ++ l₂) = run (run m l₁) l₂ :=
  List.foldl_append ..

theorem amount_applyEvent_of_not_success (s : ChainState) (e : Event)
    (h : ∀ c seq a t, e ≠ .fetchSucceeded c seq a t) :
    (applyEvent s e).record.amount = s.record.amount := by
  cases e with
  | fetchStarted c => rfl
  | fetchSucceeded c seq a t => exact absurd rfl (h c seq a t)
  | fetchFailed c seq r =>
    simp only [applyEvent, onFetchFailed]
    split <;> rfl
  | retryScheduled c =>
    simp only [applyEvent, onRetryScheduled]
    split <;> rfl
  | retryExhausted c =>
    simp only [applyEvent, onRetryExhausted]
    split <;> rfl

theorem amount_step_of_not_success (m : Machine) (e : Event) (c : ChainId)
    (h : isSuccessFor c e = false) :
    ((step m e).read c).amount = (m.read c).amount := by
  by_cases hc : e.chain = c
  · subst hc
    unfold Machine.read
    rw [step_chain_same]
    apply amount_applyEvent_of_not_success
    intro c' seq a t he
    subst he
    simp [isSuccessFor, Event.chain] at h
  · unfold Machine.read
    rw [step_chain_ne m e c hc]

theorem amount_run_of_not_success (evs : List Event) (m : Machine) (c : ChainId)
    (h : ∀ e ∈ evs, isSuccessFor c e = false) :
    ((run m evs).read c).amount = (m.read c).amount := by
  induction evs generalizing m with
  | nil => rfl
  | cons e evs ih =>
    have he : isSuccessFor c e = false := h e (List.mem_cons_self ..)
    have hrest : ∀ e' ∈ evs, isSuccessFor c e' = false :=
      fun e' he' => h e' (List.mem_cons_of_mem _ he')
    calc ((run (step m e) evs).read c).amount
        = ((step m e).read c).amount := ih (step m e) hrest
      _ = (m.read c).amount := amount_step_of_not_success m e c he

theorem chainAmountValid_applyEvent (s : ChainState) (e : Event)
    (hv : eventAmountValid e = true) (hs : chainAmountValid s) :
    chainAmountValid (applyEvent s e) := by
  cases e with
  | fetchSucceeded c seq a t =>
    intro a' ha'
    simp only [applyEvent, onFetchSucceeded] at ha'
    split at ha'
    · simp only at ha'
      cases ha'
      exact hv
    · exact hs a' ha'
  | fetchStarted c => exact hs
  | fetchFailed c seq r =>
    intro a' ha'
    rw [amount_applyEvent_of_not_success s _ (by intro _ _ _ _ h; cases h)] at ha'
    exact hs a' ha'
  | retryScheduled c =>
    intro a' ha'
    rw [amount_applyEvent_of_not_success s _ (by intro _ _ _ _ h; cases h)] at ha'
    exact hs a' ha'
  | retryExhausted c =>
    intro a' ha'
    rw [amount_applyEvent_of_not_success s _ (by intro _ _ _ _ h; cases h)] at ha'
    exact hs a' ha'

theorem chainAmountValid_step (m : Machine) (e : Event) (c : ChainId)
    (hv : eventAmountValid e = true) (hm : chainAmountValid (m.chain c)) :
    chainAmountValid ((step m e).chain c) := by
  by_cases hc : e.chain = c
  · subst hc
    rw [step_chain_same]
    exact chainAmountValid_applyEvent _ _ hv hm
  · rw [step_chain_ne m e c hc]
    exact hm

theorem chainAmountValid_run (evs : List Event) (m : Machine) (c : ChainId)
    (hv : ∀ e ∈ evs, eventAmountValid e = true) (hm : chainAmountValid (m.chain c)) :
    chainAmountValid ((run m evs).chain c) := by
  induction evs generalizing m with
  | nil => exact hm
  | cons e evs ih =>
    exact ih (step m e) (fun e' he' => hv e' (List.mem_cons_of_mem _ he'))
      (chainAmountValid_step m e c (hv e (List.mem_cons_self ..)) hm)

theorem chain_run_of_other_chain (evs : List Event) (m : Machine) (c : ChainId)
    (h : ∀ e ∈ evs, e.chain ≠ c) :
    (run m evs).chain c = m.chain c := by
  induction evs generalizing m with
  | nil => rfl
  | cons e evs ih =>
    calc (run (step m e) evs).chain c
        = (step m e).chain c := ih (step m e) (fun e' he' => h e' (List.mem_cons_of_mem _ he'))
      _ = m.chain c := step_chain_ne m e c (h e (List.mem_cons_self ..))

theorem tryWaitLoadState_caught (w : Except PyExc Unit)
    (h : waitOutcomeCaught w = true) : tryWaitLoadState w = Except.ok () := by
  cases w with
  | ok u => rfl
  | error e => simp [tryWaitLoadState, waitOutcomeCaught] at h ⊢; exact h

theorem waitPhase_all_caught (mainW : Except PyExc Unit)
    (frameWs : List (Except PyExc Unit))
    (hm : waitOutcomeCaught mainW = true)
    (hf : ∀ w ∈ frameWs, waitOutcomeCaught w = true) :
    waitPhase mainW frameWs = Except.ok () := by
  unfold waitPhase
  rw [tryWaitLoadState_caught mainW hm]
  induction frameWs with
  | nil => rfl
  | cons w ws ih =>
    simp only [List.foldl_cons]
    rw [tryWaitLoadState_caught w (hf w (List.mem_cons_self ..))]
    exact ih (fun w' hw' => hf w' (List.mem_cons_of_mem _ hw'))

theorem step_fresh_success (m : Machine) (c : ChainId) (seq : Nat) (a : String) (t : Nat)
    (h : (m.chain c).lastAppliedSeq < seq) :
    (step m (.fetchSucceeded c seq a t)).chain c =
      { m.chain c with
        record := { (m.chain c).record with amount := some a, lastUpdatedAt := t, status := .Ok }
        lastAppliedSeq := seq } := by
  have hs := step_chain_same m (.fetchSucceeded c seq a t)
  simp only [Event.chain] at hs
  rw [hs]
  simp only [applyEvent, onFetchSucceeded, if_pos h]

theorem step_stale_success (m : Machine) (c : ChainId) (seq : Nat) (a : String) (t : Nat)
    (h : ¬ (m.chain c).lastAppliedSeq < seq) :
    step m (.fetchSucceeded c seq a t) = m := by
  have ha : applyEvent (m.chain c) (.fetchSucceeded c seq a t) = m.chain c := by
    simp only [applyEvent, onFetchSucceeded, if_neg h]
  unfold step
  simp only [Event.chain]
  rw [ha]
  exact setChain_chain_self m c

theorem step_fresh_failure (m : Machine) (c : ChainId) (seq : Nat) (r : FailureReason)
    (h : (m.chain c).lastAppliedSeq < seq) :
    (step m (.fetchFailed c seq r)).chain c =
      { m.chain c with
        record := { (m.chain c).record with status := failStatus (m.chain c).record.status }
        lastAppliedSeq := seq } := by
  have hs := step_chain_same m (.fetchFailed c seq r)
  simp only [Event.chain] at hs
  rw [hs]
  simp only [applyEvent, onFetchFailed, if_pos h]

theorem chainLabel_length (c : ChainId) : (chainLabel c).length = 6 := by
  cases c <;> rfl

/-! ### Claim theorems -/

/-- C3: on a forced BalanceSource failure of a chain in Ok, the status
transitions Ok→Error within one tick and the error indicator (status
Error) is observable before any retry indicator; the retry indicator
becomes observable once the RetryController schedules the re-fetch,
which it does `retryDelayMs` after the error (hence within
`retryDelayMs`); a subsequent success returns the status to Ok with the
fresh amount. -/
theorem failure_error_before_retry_then_recovery
    (m : Machine) (c : ChainId) (s1 s2 t t0 d : Nat) (a : String) (r : FailureReason)
    (hOk : (m.read c).status = .Ok)
    (h1 : (m.chain c).lastAppliedSeq < s1) (h12 : s1 < s2) :
    ((step m (.fetchFailed c s1 r)).read c).status = .Error ∧
    ((step m (.fetchFailed c s1 r)).read c).status ≠ .Retrying ∧
    ((step (step m (.fetchFailed c s1 r)) (.retryScheduled c)).read c).status = .Retrying ∧
    ((step (step (step m (.fetchFailed c s1 r)) (.retryScheduled c))
        (.fetchSucceeded c s2 a t)).read c).status = .Ok ∧
    ((step (step (step m (.fetchFailed c s1 r)) (.retryScheduled c))
        (.fetchSucceeded c s2 a t)).read c).amount = some a ∧
    retryScheduleTime t0 d ≤ t0 + d := by
  have hst : failStatus (m.chain c).record.status = .Error := by
    have hOk' : (m.chain c).record.status = .Ok := hOk
    rw [hOk']
    rfl
  have hm1 : (step m (.fetchFailed c s1 r)).chain c =
      { m.chain c with
        record := { (m.chain c).record with status := .Error }
        lastAppliedSeq := s1 } := by
    rw [step_fresh_failure m c s1 r h1, hst]
  have hm2 : (step (step m (.fetchFailed c s1 r)) (.retryScheduled c)).chain c =
      { m.chain c with
        record := { (m.chain c).record with status := .Retrying }
        lastAppliedSeq := s1 } := by
    have hs := step_chain_same (step m (.fetchFailed c s1 r)) (.retryScheduled c)
    simp only [Event.chain] at hs
    rw [hs, hm1]
    simp [applyEvent, onRetryScheduled]
  have hm3 : (step (step (step m (.fetchFailed c s1 r)) (.retryScheduled c))
      (.fetchSucceeded c s2 a t)).chain c =
      { m.chain c with
        record := { (m.chain c).record with amount := some a, lastUpdatedAt := t, status := .Ok }
        lastAppliedSeq := s2 } := by
    rw [step_fresh_success _ c s2 a t (by rw [hm2]; exact h12), hm2]
  refine ⟨?_, ?_, ?_, ?_, ?_, le_refl _⟩
  · show ((step m (.fetchFailed c s1 r)).chain c).record.status = .Error
    rw [hm1]
  · show ((step m (.fetchFailed c s1 r)).chain c).record.status ≠ .Retrying
    rw [hm1]
    simp
  · show ((step (step m (.fetchFailed c s1 r)) (.retryScheduled c)).chain c).record.status =
      .Retrying
    rw [hm2]
  · show ((step (step (step m (.fetchFailed c s1 r)) (.retryScheduled c))
        (.fetchSucceeded c s2 a t)).chain c).record.status = .Ok
    rw [hm3]
  · show ((step (step (step m (.fetchFailed c s1 r)) (.retryScheduled c))
        (.fetchSucceeded c s2 a t)).chain c).record.amount = some a
    rw [hm3]

/-- C4: the display projection renders the Ok state as
`"<CHAIN-LABEL> Token Balance: <amount>"`, the Error state as the
network-error string, the Retrying state as the retry-in-progress
string, and these three renderings are pairwise distinct. -/
theorem display_renders_three_distinct_states (c : ChainId) (r : BalanceRecord) (a : String) :
    (r.status = .Ok → r.amount = some a →
      displayProjection c r = chainLabel c ++ " Token Balance: " ++ a) ∧
    (r.status = .Error → displayProjection c r = networkErrorText) ∧
    (r.status = .Retrying → displayProjection c r = retryingText) ∧
    chainLabel c ++ " Token Balance: " ++ a ≠ networkErrorText ∧
    chainLabel c ++ " Token Balance: " ++ a ≠ retryingText ∧
    networkErrorText ≠ retryingText := by
  refine ⟨?_, ?_, ?_, ?_, ?_, by decide⟩
  · intro hs ha
    unfold displayProjection
    rw [hs, ha]
  · intro hs
    unfold displayProjection
    rw [hs]
  · intro hs
    unfold displayProjection
    rw [hs]
  · intro h
    have hl := congrArg String.length h
    rw [String.length_append, String.length_append, chainLabel_length] at hl
    have h2 : (" Token Balance: " : String).length = 16 := rfl
    have h3 : networkErrorText.length = 9 := rfl
    rw [h2, h3] at hl
    omega
  · intro h
    have hl := congrArg String.length h
    rw [String.length_append, String.length_append, chainLabel_length] at hl
    have h2 : (" Token Balance: " : String).length = 16 := rfl
    have h3 : retryingText.length = 4 := rfl
    rw [h2, h3] at hl
    omega

/-- C5: `read` is a pure projection of the committed record, and no event
other than a committed success for the chain ever changes the amount;
in particular a fetch start (an in-flight fetch) leaves the whole record
— amount included — untouched, so there is no flash-to-empty. -/
theorem read_amount_only_changed_by_committed_success
    (m : Machine) (evs : List Event) (c : ChainId)
    (h : ∀ e ∈ evs, isSuccessFor c e = false) :
    ((run m evs).read c).amount = (m.read c).amount ∧
    ∀ (m' : Machine) (c' : ChainId), (step m' (.fetchStarted c')).read c' = m'.read c' := by
  refine ⟨amount_run_of_not_success evs m c h, ?_⟩
  intro m' c'
  show ((step m' (.fetchStarted c')).chain c').record = (m'.chain c').record
  have hs := step_chain_same m' (.fetchStarted c')
  simp only [Event.chain] at hs
  rw [hs]
  rfl

/-- C6: if fetch #1 (sequence `s1`) and fetch #2 (sequence `s2 > s1`)
are both issued for one chain and #2 commits first, the record reflects
#2's amount and #1's later completion is discarded without changing the
machine; sequence numbers are assigned monotonically, one per issued
fetch. -/
theorem stale_completion_never_overwrites
    (m : Machine) (c : ChainId) (s1 s2 t1 t2 : Nat) (a1 a2 : String)
    (h2 : (m.chain c).lastAppliedSeq < s2) (h12 : s1 < s2) :
    ((step m (.fetchSucceeded c s2 a2 t2)).read c).amount = some a2 ∧
    step (step m (.fetchSucceeded c s2 a2 t2)) (.fetchSucceeded c s1 a1 t1) =
      step m (.fetchSucceeded c s2 a2 t2) ∧
    ∀ (m' : Machine) (c' : ChainId),
      ((step m' (.fetchStarted c')).chain c').nextSeq = (m'.chain c').nextSeq + 1 := by
  have hm2 := step_fresh_success m c s2 a2 t2 h2
  refine ⟨?_, ?_, ?_⟩
  · show ((step m (.fetchSucceeded c s2 a2 t2)).chain c).record.amount = some a2
    rw [hm2]
  · apply step_stale_success
    rw [hm2]
    exact fun hlt => absurd (lt_trans h12 hlt) (lt_irrefl s1)
  · intro m' c'
    have hs := step_chain_same m' (.fetchStarted c')
    simp only [Event.chain] at hs
    rw [hs]
    rfl

/-- C7: every fetch failure is data at the component boundary: the
transition function treats all failure causes identically, a non-stale
failure only moves the status to Error (or keeps the retry loop's
Retrying), the committed amount is untouched, and retry exhaustion too
is surfaced only as a status value. -/
theorem fetch_failures_are_status_data
    (m : Machine) (c : ChainId) (seq : Nat) (r r' : FailureReason)
    (hfresh : (m.chain c).lastAppliedSeq < seq) :
    step m (.fetchFailed c seq r) = step m (.fetchFailed c seq r') ∧
    (((step m (.fetchFailed c seq r)).read c).status = .Error ∨
      ((step m (.fetchFailed c seq r)).read c).status = .Retrying) ∧
    ((step m (.fetchFailed c seq r)).read c).amount = (m.read c).amount ∧
    (((step m (.retryExhausted c)).read c).status = .Error ∨
      (step m (.retryExhausted c)).read c = m.read c) := by
  refine ⟨rfl, ?_, ?_, ?_⟩
  · show ((step m (.fetchFailed c seq r)).chain c).record.status = .Error ∨
      ((step m (.fetchFailed c seq r)).chain c).record.status = .Retrying
    rw [step_fresh_failure m c seq r hfresh]
    cases hs : (m.chain c).record.status <;> simp [failStatus]
  · exact amount_step_of_not_success m _ c rfl
  · have hx := step_chain_same m (.retryExhausted c)
    simp only [Event.chain] at hx
    by_cases hcond : (m.chain c).record.status = .Error ∨ (m.chain c).record.status = .Retrying
    · left
      show ((step m (.retryExhausted c)).chain c).record.status = .Error
      rw [hx]
      simp only [applyEvent, onRetryExhausted, if_pos hcond]
    · right
      show ((step m (.retryExhausted c)).chain c).record = (m.chain c).record
      rw [hx]
      simp only [applyEvent, onRetryExhausted, if_neg hcond]

/-- C8: chain isolation — a trace of events addressed only to the
ERC-20 chain (fetch failures and retry exhaustion included) leaves the
TRC-20 chain's whole state (record, status, amount, sequence counters)
unchanged; more generally a single step never touches a chain it does
not address. -/
theorem chain_isolation
    (m : Machine) (evs : List Event)
    (h : ∀ e ∈ evs, e.chain = ChainId.ERC20) :
    (run m evs).chain .TRC20 = m.chain .TRC20 ∧
    ∀ (m' : Machine) (e : Event) (c : ChainId), e.chain ≠ c →
      (step m' e).chain c = m'.chain c := by
  refine ⟨?_, fun m' e c hc => step_chain_ne m' e c hc⟩
  refine chain_run_of_other_chain evs m _ (fun e he => ?_)
  rw [h e he]
  intro hx
  cases hx

theorem string_append_right_inj (s x y : String) (h : s ++ x = s ++ y) : x = y := by
  have hd := congrArg String.data h
  rw [String.data_append, String.data_append] at hd
  exact String.ext (List.append_cancel_left hd)

/-- C1: in the reference scenario — refresh interval 15, a wait of 16
time-units, the BalanceSource returning on each chain a value at the
second tick different from the one at time zero — the amount held for
each chain after the wait differs from its value at time zero, and so
does the displayed string: the displayed value is not frozen while the
source is changing. -/
theorem refresh_changes_displayed_amount
    (src : ChainId → Nat → Option String) (a0 a1 b0 b1 : String)
    (ha : a0 ≠ a1) (hb : b0 ≠ b1)
    (h00 : src .ERC20 0 = some a0) (h15 : src .ERC20 15 = some a1)
    (h20 : src .TRC20 0 = some b0) (h25 : src .TRC20 15 = some b1) :
    ((run initMachine (schedulerEvents 15 src 16)).read .ERC20).amount ≠
      ((run initMachine (schedulerEvents 15 src 1)).read .ERC20).amount ∧
    ((run initMachine (schedulerEvents 15 src 16)).read .TRC20).amount ≠
      ((run initMachine (schedulerEvents 15 src 1)).read .TRC20).amount ∧
    displayProjection .ERC20 ((run initMachine (schedulerEvents 15 src 16)).read .ERC20) ≠
      displayProjection .ERC20 ((run initMachine (schedulerEvents 15 src 1)).read .ERC20) ∧
    displayProjection .TRC20 ((run initMachine (schedulerEvents 15 src 16)).read .TRC20) ≠
      displayProjection .TRC20 ((run initMachine (schedulerEvents 15 src 1)).read .TRC20) := by
  have tickE0 : tickEvents src .ERC20 0 0 =
      [.fetchStarted .ERC20, .fetchSucceeded .ERC20 1 a0 0] := by
    unfold tickEvents; rw [h00]
  have tickT0 : tickEvents src .TRC20 0 0 =
      [.fetchStarted .TRC20, .fetchSucceeded .TRC20 1 b0 0] := by
    unfold tickEvents; rw [h20]
  have tickE15 : tickEvents src .ERC20 1 15 =
      [.fetchStarted .ERC20, .fetchSucceeded .ERC20 2 a1 15] := by
    unfold tickEvents; rw [h15]
  have tickT15 : tickEvents src .TRC20 1 15 =
      [.fetchStarted .TRC20, .fetchSucceeded .TRC20 2 b1 15] := by
    unfold tickEvents; rw [h25]
  have estep : ∀ u : Nat, u % 15 ≠ 0 →
      schedulerEvents 15 src (u + 1) = schedulerEvents 15 src u := by
    intro u hu
    rw [schedulerEvents, if_neg hu, List.append_nil]
  have hev1 : schedulerEvents 15 src 1 =
      [.fetchStarted .ERC20, .fetchSucceeded .ERC20 1 a0 0,
       .fetchStarted .TRC20, .fetchSucceeded .TRC20 1 b0 0] := by
    show schedulerEvents 15 src (0 + 1) = _
    rw [schedulerEvents, if_pos (by decide : (0 : Nat) % 15 = 0)]
    rw [show schedulerEvents 15 src 0 = [] from rfl, List.nil_append]
    rw [show (0 : Nat) / 15 = 0 from rfl, tickE0, tickT0]
    rfl
  have h15e : schedulerEvents 15 src 15 = schedulerEvents 15 src 1 := by
    rw [show (15 : Nat) = 14 + 1 from rfl, estep 14 (by decide)]
    rw [show (14 : Nat) = 13 + 1 from rfl, estep 13 (by decide)]
    rw [show (13 : Nat) = 12 + 1 from rfl, estep 12 (by decide)]
    rw [show (12 : Nat) = 11 + 1 from rfl, estep 11 (by decide)]
    rw [show (11 : Nat) = 10 + 1 from rfl, estep 10 (by decide)]
    rw [show (10 : Nat) = 9 + 1 from rfl, estep 9 (by decide)]
    rw [show (9 : Nat) = 8 + 1 from rfl, estep 8 (by decide)]
    rw [show (8 : Nat) = 7 + 1 from rfl, estep 7 (by decide)]
    rw [show (7 : Nat) = 6 + 1 from rfl, estep 6 (by decide)]
    rw [show (6 : Nat) = 5 + 1 from rfl, estep 5 (by decide)]
    rw [show (5 : Nat) = 4 + 1 from rfl, estep 4 (by decide)]
    rw [show (4 : Nat) = 3 + 1 from rfl, estep 3 (by decide)]
    rw [show (3 : Nat) = 2 + 1 from rfl, estep 2 (by decide)]
    rw [show (2 : Nat) = 1 + 1 from rfl, estep 1 (by decide)]
  have hev16 : schedulerEvents 15 src 16 =
      schedulerEvents 15 src 1 ++
        [.fetchStarted .ERC20, .fetchSucceeded .ERC20 2 a1 15,
         .fetchStarted .TRC20, .fetchSucceeded .TRC20 2 b1 15] := by
    show schedulerEvents 15 src (15 + 1) = _
    rw [schedulerEvents, if_pos (by decide : (15 : Nat) % 15 = 0)]
    rw [show (15 : Nat) / 15 = 1 from rfl, tickE15, tickT15, h15e]
    rfl
  have hm0 : run initMachine (schedulerEvents 15 src 1) =
      { erc20 :=
          { record := { chain := .ERC20, amount := some a0, lastUpdatedAt := 0, status := .Ok }
            nextSeq := 2, lastAppliedSeq := 1 }
        trc20 :=
          { record := { chain := .TRC20, amount := some b0, lastUpdatedAt := 0, status := .Ok }
            nextSeq := 2, lastAppliedSeq := 1 } } := by
    rw [hev1]
    rfl
  have hm16 : run initMachine (schedulerEvents 15 src 16) =
      { erc20 :=
          { record := { chain := .ERC20, amount := some a1, lastUpdatedAt := 15, status := .Ok }
            nextSeq := 3, lastAppliedSeq := 2 }
        trc20 :=
          { record := { chain := .TRC20, amount := some b1, lastUpdatedAt := 15, status := .Ok }
            nextSeq := 3, lastAppliedSeq := 2 } } := by
    rw [hev16, run_append, hm0]
    rfl
  refine ⟨?_, ?_, ?_, ?_⟩
  · rw [hm16, hm0]
    intro h
    have h' : some a1 = some a0 := h
    exact ha (Option.some.inj h').symm
  · rw [hm16, hm0]
    intro h
    have h' : some b1 = some b0 := h
    exact hb (Option.some.inj h').symm
  · rw [hm16, hm0]
    intro h
    have h' : ("ERC-20" ++ " Token Balance: " : String) ++ a1 =
        ("ERC-20" ++ " Token Balance: " : String) ++ a0 := h
    exact ha (string_append_right_inj _ _ _ h').symm
  · rw [hm16, hm0]
    intro h
    have h' : ("TRC-20" ++ " Token Balance: " : String) ++ b1 =
        ("TRC-20" ++ " Token Balance: " : String) ++ b0 := h
    exact hb (string_append_right_inj _ _ _ h').symm

/-- C2: a fresh (non-stale) successful fetch whose amount satisfies the
decimal pattern `\d+(\.\d+)?` leaves the chain with status Ok and that
amount; moreover, for any trace whose success events all carry
pattern-valid amounts, every amount the machine ever exposes through
`read` satisfies the pattern. -/
theorem first_success_commits_valid_decimal_ok
    (pre : List Event) (c : ChainId) (seq : Nat) (a : String) (t : Nat)
    (ha : isDecimalString a = true)
    (hfresh : ((run initMachine pre).chain c).lastAppliedSeq < seq) :
    ((run initMachine (pre ++ [.fetchSucceeded c seq a t])).read c).status = .Ok ∧
    ((run initMachine (pre ++ [.fetchSucceeded c seq a t])).read c).amount = some a ∧
    isDecimalString a = true ∧
    ∀ evs : List Event, (∀ e ∈ evs, eventAmountValid e = true) →
      ∀ (c' : ChainId) (a' : String),
        ((run initMachine evs).read c').amount = some a' → isDecimalString a' = true := by
  have hsplit : run initMachine (pre ++ [Event.fetchSucceeded c seq a t]) =
      step (run initMachine pre) (.fetchSucceeded c seq a t) := by
    rw [run_append]
    rfl
  have hchain := step_fresh_success (run initMachine pre) c seq a t hfresh
  refine ⟨?_, ?_, ha, ?_⟩
  · show ((run initMachine (pre ++ [Event.fetchSucceeded c seq a t])).chain c).record.status =
      .Ok
    rw [hsplit, hchain]
  · show ((run initMachine (pre ++ [Event.fetchSucceeded c seq a t])).chain c).record.amount =
      some a
    rw [hsplit, hchain]
  · intro evs hv c' a' ha'
    have hinit : chainAmountValid (initMachine.chain c') := by
      intro x hx
      cases c' <;> cases hx
    exact chainAmountValid_run evs initMachine c' hv hinit a' ha'

/-- C9: on every exit path of `run_test` — normal completion or an
exception at any stage of the `try:` body — the `finally:` block closes
exactly the resources whose creation had completed (each at most once),
and touches none that was never created. -/
theorem teardown_closes_exactly_created_resources :
    ∀ (p : ExitPath) (r : Resource),
      (r ∈ finallyCloses p ↔ resourceCreated p r = true) ∧
      (finallyCloses p).Nodup := by
  decide

/-- C10: a Playwright `Error` (its `TimeoutError` subclass included)
raised while waiting for DOMContentLoaded — on the main page or on any
iframe — is swallowed by the surrounding `except async_api.Error: pass`,
so the wait phase never raises and the script always proceeds to the
interaction and assertion steps. -/
theorem load_wait_failures_swallowed
    (α : Type) (mainW : Except PyExc Unit) (frameWs : List (Except PyExc Unit))
    (rest : Except PyExc α)
    (hm : waitOutcomeCaught mainW = true)
    (hf : ∀ w ∈ frameWs, waitOutcomeCaught w = true) :
    waitPhase mainW frameWs = Except.ok () ∧
    runAfterGoto mainW frameWs rest = rest := by
  have hw := waitPhase_all_caught mainW frameWs hm hf
  refine ⟨hw, ?_⟩
  unfold runAfterGoto
  rw [hw]

/-! ### Concrete instances of the theorems above -/

/-- The reference BalanceSource of the scenario: each chain's value at
the second tick (time 15) differs from its value at time 0. -/
def refSrc : ChainId → Nat → Option String :=
  fun c t =>
    match c, t with
    | .ERC20, 0 => some "100"
    | .ERC20, _ => some "101"
    | .TRC20, 0 => some "200"
    | .TRC20, _ => some "201"

/-- A machine whose ERC-20 chain has already committed one successful
fetch (status Ok, amount "5", sequence 1 applied). -/
def okMachineE : Machine :=
  { erc20 :=
      { record := { chain := .ERC20, amount := some "5", lastUpdatedAt := 0, status := .Ok }
        nextSeq := 2, lastAppliedSeq := 1 }
    trc20 := initialChain .TRC20 }

theorem refresh_changes_displayed_amount_witness :
    ((run initMachine (schedulerEvents 15 refSrc 16)).read .ERC20).amount ≠
      ((run initMachine (schedulerEvents 15 refSrc 1)).read .ERC20).amount ∧
    ((run initMachine (schedulerEvents 15 refSrc 16)).read .TRC20).amount ≠
      ((run initMachine (schedulerEvents 15 refSrc 1)).read .TRC20).amount ∧
    displayProjection .ERC20 ((run initMachine (schedulerEvents 15 refSrc 16)).read .ERC20) ≠
      displayProjection .ERC20 ((run initMachine (schedulerEvents 15 refSrc 1)).read .ERC20) ∧
    displayProjection .TRC20 ((run initMachine (schedulerEvents 15 refSrc 16)).read .TRC20) ≠
      displayProjection .TRC20 ((run initMachine (schedulerEvents 15 refSrc 1)).read .TRC20) :=
  refresh_changes_displayed_amount refSrc "100" "101" "200" "201"
    (by decide) (by decide) rfl rfl rfl rfl

theorem first_success_commits_valid_decimal_ok_witness :
    ((run initMachine
        ([.fetchStarted .ERC20] ++ [.fetchSucceeded .ERC20 1 "12.5" 3])).read .ERC20).status =
      .Ok ∧
    ((run initMachine
        ([.fetchStarted .ERC20] ++ [.fetchSucceeded .ERC20 1 "12.5" 3])).read .ERC20).amount =
      some "12.5" ∧
    isDecimalString "12.5" = true ∧
    ∀ evs : List Event, (∀ e ∈ evs, eventAmountValid e = true) →
      ∀ (c' : ChainId) (a' : String),
        ((run initMachine evs).read c').amount = some a' → isDecimalString a' = true :=
  first_success_commits_valid_decimal_ok [.fetchStarted .ERC20] .ERC20 1 "12.5" 3
    (by decide) (by decide)

theorem failure_error_before_retry_then_recovery_witness :
    ((step okMachineE (.fetchFailed .ERC20 2 .timeout)).read .ERC20).status = .Error ∧
    ((step okMachineE (.fetchFailed .ERC20 2 .timeout)).read .ERC20).status ≠ .Retrying ∧
    ((step (step okMachineE (.fetchFailed .ERC20 2 .timeout))
        (.retryScheduled .ERC20)).read .ERC20).status = .Retrying ∧
    ((step (step (step okMachineE (.fetchFailed .ERC20 2 .timeout)) (.retryScheduled .ERC20))
        (.fetchSucceeded .ERC20 3 "9" 7)).read .ERC20).status = .Ok ∧
    ((step (step (step okMachineE (.fetchFailed .ERC20 2 .timeout)) (.retryScheduled .ERC20))
        (.fetchSucceeded .ERC20 3 "9" 7)).read .ERC20).amount = some "9" ∧
    retryScheduleTime 5 4 ≤ 5 + 4 :=
  failure_error_before_retry_then_recovery okMachineE .ERC20 2 3 7 5 4 "9" .timeout
    rfl (by decide) (by decide)

theorem display_renders_three_distinct_states_witness :
    ((⟨.ERC20, some "7", 0, .Ok⟩ : BalanceRecord).status = .Ok →
      (⟨.ERC20, some "7", 0, .Ok⟩ : BalanceRecord).amount = some "7" →
      displayProjection .ERC20 ⟨.ERC20, some "7", 0, .Ok⟩ =
        chainLabel .ERC20 ++ " Token Balance: " ++ "7") ∧
    ((⟨.ERC20, some "7", 0, .Ok⟩ : BalanceRecord).status = .Error →
      displayProjection .ERC20 ⟨.ERC20, some "7", 0, .Ok⟩ = networkErrorText) ∧
    ((⟨.ERC20, some "7", 0, .Ok⟩ : BalanceRecord).status = .Retrying →
      displayProjection .ERC20 ⟨.ERC20, some "7", 0, .Ok⟩ = retryingText) ∧
    chainLabel .ERC20 ++ " Token Balance: " ++ "7" ≠ networkErrorText ∧
    chainLabel .ERC20 ++ " Token Balance: " ++ "7" ≠ retryingText ∧
    networkErrorText ≠ retryingText :=
  display_renders_three_distinct_states .ERC20 ⟨.ERC20, some "7", 0, .Ok⟩ "7"

theorem read_amount_only_changed_by_committed_success_witness :
    ((run okMachineE
        [.fetchStarted .ERC20, .fetchFailed .ERC20 2 .timeout, .retryScheduled .ERC20,
         .fetchSucceeded .TRC20 1 "3" 2]).read .ERC20).amount =
      (okMachineE.read .ERC20).amount ∧
    ∀ (m' : Machine) (c' : ChainId), (step m' (.fetchStarted c')).read c' = m'.read c' :=
  read_amount_only_changed_by_committed_success okMachineE
    [.fetchStarted .ERC20, .fetchFailed .ERC20 2 .timeout, .retryScheduled .ERC20,
     .fetchSucceeded .TRC20 1 "3" 2] .ERC20 (by decide)

theorem stale_completion_never_overwrites_witness :
    ((step initMachine (.fetchSucceeded .ERC20 2 "new" 4)).read .ERC20).amount = some "new" ∧
    step (step initMachine (.fetchSucceeded .ERC20 2 "new" 4)) (.fetchSucceeded .ERC20 1 "old" 9) =
      step initMachine (.fetchSucceeded .ERC20 2 "new" 4) ∧
    ∀ (m' : Machine) (c' : ChainId),
      ((step m' (.fetchStarted c')).chain c').nextSeq = (m'.chain c').nextSeq + 1 :=
  stale_completion_never_overwrites initMachine .ERC20 1 2 9 4 "old" "new"
    (by decide) (by decide)

theorem fetch_failures_are_status_data_witness :
    step okMachineE (.fetchFailed .ERC20 2 .timeout) =
      step okMachineE (.fetchFailed .ERC20 2 .malformed) ∧
    (((step okMachineE (.fetchFailed .ERC20 2 .timeout)).read .ERC20).status = .Error ∨
      ((step okMachineE (.fetchFailed .ERC20 2 .timeout)).read .ERC20).status = .Retrying) ∧
    ((step okMachineE (.fetchFailed .ERC20 2 .timeout)).read .ERC20).amount =
      (okMachineE.read .ERC20).amount ∧
    (((step okMachineE (.retryExhausted .ERC20)).read .ERC20).status = .Error ∨
      (step okMachineE (.retryExhausted .ERC20)).read .ERC20 = okMachineE.read .ERC20) :=
  fetch_failures_are_status_data okMachineE .ERC20 2 .timeout .malformed (by decide)

theorem chain_isolation_witness :
    (run initMachine
        [.fetchStarted .ERC20, .fetchFailed .ERC20 1 .timeout, .retryScheduled .ERC20,
         .retryExhausted .ERC20]).chain .TRC20 = initMachine.chain .TRC20 ∧
    ∀ (m' : Machine) (e : Event) (c : ChainId), e.chain ≠ c →
      (step m' e).chain c = m'.chain c :=
  chain_isolation initMachine
    [.fetchStarted .ERC20, .fetchFailed .ERC20 1 .timeout, .retryScheduled .ERC20,
     .retryExhausted .ERC20] (by decide)

theorem load_wait_failures_swallowed_witness :
    waitPhase (.error .pwTimeout) [.error .pwError, .ok ()] = Except.ok () ∧
    runAfterGoto (.error .pwTimeout) [.error .pwError, .ok ()] (Except.ok 42) =
      Except.ok (42 : Nat) :=
  load_wait_failures_swallowed Nat (.error .pwTimeout) [.error .pwError, .ok ()]
    (Except.ok 42) (by decide) (by decide)

end TransferDapp
